import Mathlib

/-!
Shallow embedding of the employee-management HTTP service
(`serverextra.js`, route handlers over an in-memory SQLite store)
and of the standalone data-access module (`dataAccess.js`).

The store holds two tables: `employees (id INTEGER PRIMARY KEY
AUTOINCREMENT, name TEXT, role TEXT, status TEXT)` and
`roles (name TEXT PRIMARY KEY)`.  Column values other than `id` are
nullable (`Option String`, `none` = SQL NULL).  The AUTOINCREMENT
sequence is modelled by the `seq` field: a fresh row gets id
`seq + 1` and the sequence is bumped, so ids are never reused even
after deletes, exactly as SQLite's AUTOINCREMENT behaves.

Each HTTP handler becomes a pure function from its inputs and the
current store to an (HTTP status, response body) pair, together with
the store after the statement ran.  Request-body fields are
`Option String` (`none` = field absent from the JSON body, bound as
NULL by the SQL driver).
-/

namespace EmpMgmt

structure Employee where
  id : Nat
  name : Option String
  role : Option String
  status : Option String
deriving DecidableEq

structure Store where
  employees : List Employee
  roles : List String
  seq : Nat
deriving DecidableEq

/-- The freshly created database: both tables empty, sequence at zero. -/
def initStore : Store := ⟨[], [], 0⟩

/-- JavaScript falsiness of a request-body string field (`!x` in the
handlers): the field is absent (`undefined`) or the empty string. -/
def falsy : Option String → Bool
  | none => true
  | some s => s == ""

/-- Tests whether the first character list occurs at the start of the
second (character-list core of SQL pattern matching). -/
def prefAt : List Char → List Char → Bool
  | [], _ => true
  | _ :: _, [] => false
  | q :: qs, c :: cs => q == c && prefAt qs cs

/-- Tests whether `q` occurs as a contiguous run somewhere in the
second list. -/
def subAt (q : List Char) : List Char → Bool
  | [] => prefAt q []
  | c :: cs => prefAt q (c :: cs) || subAt q cs

/-- SQLite `column LIKE '%q%'`: a NULL column never matches; otherwise
substring match with SQLite's default ASCII case folding. -/
def likeContains (q : String) : Option String → Bool
  | none => false
  | some n => subAt (q.data.map Char.toLower) (n.data.map Char.toLower)

/-- Handler for `POST /employees` (serverextra.js lines 59–73): validates that
name, role and status are all truthy, otherwise 400 and no insert;
on success inserts the row with the next AUTOINCREMENT id and
returns 201 with the full record. -/
def postEmployees (name role status : Option String) (s : Store) :
    (Nat × Option Employee) × Store :=
  if falsy name || falsy role || falsy status then
    ((400, none), s)
  else
    let newId := s.seq + 1
    let e : Employee := ⟨newId, name, role, status⟩
    ((201, some e), ⟨s.employees ++ [e], s.roles, newId⟩)

/-- Handler for `GET /employees/:id` (lines 106–120): `SELECT * FROM employees
WHERE id = ?`; 404 when no row, otherwise 200 with the row. -/
def getEmployeeById (id : Nat) (s : Store) : Nat × Option Employee :=
  match s.employees.find? (fun e => e.id == id) with
  | none => (404, none)
  | some e => (200, some e)

/-- Handler for `PUT /employees/:id` (lines 166–181): `UPDATE employees SET
name = ?, role = ?, status = ? WHERE id = ?` with no validation of the
body; 404 when zero rows changed, otherwise 200 echoing the request
values.  Absent body fields are bound as NULL. -/
def putEmployee (id : Nat) (name role status : Option String) (s : Store) :
    (Nat × Option (Nat × Option String × Option String × Option String)) × Store :=
  let employees' := s.employees.map
    (fun e => if e.id == id then ⟨e.id, name, role, status⟩ else e)
  let changes := (s.employees.filter (fun e => e.id == id)).length
  if changes == 0 then
    ((404, none), ⟨employees', s.roles, s.seq⟩)
  else
    ((200, some (id, name, role, status)), ⟨employees', s.roles, s.seq⟩)

/-- Handler for `DELETE /employees/:id` (lines 209–223): `DELETE FROM employees
WHERE id = ?`; 404 when zero rows changed. -/
def deleteEmployee (id : Nat) (s : Store) : (Nat × Option String) × Store :=
  let employees' := s.employees.filter (fun e => !(e.id == id))
  let changes := (s.employees.filter (fun e => e.id == id)).length
  if changes == 0 then
    ((404, none), ⟨employees', s.roles, s.seq⟩)
  else
    ((200, some "Employee deleted successfully."), ⟨employees', s.roles, s.seq⟩)

/-- Handler for `POST /employees/:id/assign-role` (lines 252–267): `UPDATE
employees SET role = ? WHERE id = ?`; 404 when zero rows changed. -/
def assignRole (id : Nat) (role : Option String) (s : Store) :
    (Nat × Option String) × Store :=
  let employees' := s.employees.map
    (fun e => if e.id == id then ⟨e.id, e.name, role, e.status⟩ else e)
  let changes := (s.employees.filter (fun e => e.id == id)).length
  if changes == 0 then
    ((404, none), ⟨employees', s.roles, s.seq⟩)
  else
    ((200, some "Role assigned successfully."), ⟨employees', s.roles, s.seq⟩)

/-- Handler for `GET /employees/search?name=` (lines 301–317): `SELECT * FROM
employees WHERE name LIKE ?` with pattern `%name%`; the handler returns
404 when the result set is empty, otherwise 200 with the rows. -/
def searchEmployees (q : String) (s : Store) : Nat × List Employee :=
  let rows := s.employees.filter (fun e => likeContains q e.name)
  if rows.isEmpty then (404, []) else (200, rows)

/-- Handler for `PUT /admin/update-status/:id` (lines 495–510): `UPDATE employees
SET status = ? WHERE id = ?`; 404 when zero rows changed. -/
def updateStatus (id : Nat) (status : Option String) (s : Store) :
    (Nat × Option String) × Store :=
  let employees' := s.employees.map
    (fun e => if e.id == id then ⟨e.id, e.name, e.role, status⟩ else e)
  let changes := (s.employees.filter (fun e => e.id == id)).length
  if changes == 0 then
    ((404, none), ⟨employees', s.roles, s.seq⟩)
  else
    ((200, some "Employee status updated successfully."), ⟨employees', s.roles, s.seq⟩)

/-- Handler for `DELETE /admin/delete-role/:name` (lines 446–460): `DELETE FROM
roles WHERE name = ?`; 404 when zero rows changed.  Only the roles
table is touched. -/
def deleteRole (name : String) (s : Store) : (Nat × Option String) × Store :=
  let roles' := s.roles.filter (fun r => !(r == name))
  let changes := (s.roles.filter (fun r => r == name)).length
  if changes == 0 then
    ((404, none), ⟨s.employees, roles', s.seq⟩)
  else
    ((200, some "Role deleted successfully."), ⟨s.employees, roles', s.seq⟩)

/-- Handler for `GET /employees/:id/details` (lines 545–559): `SELECT employees.*,
roles.name AS roleName FROM employees LEFT JOIN roles ON
employees.role = roles.name WHERE employees.id = ?`; 404 only when the
employee row is absent; `roleName` is NULL when the role has no
matching row (including a NULL role). -/
def getEmployeeDetails (id : Nat) (s : Store) :
    Nat × Option (Employee × Option String) :=
  match s.employees.find? (fun e => e.id == id) with
  | none => (404, none)
  | some e =>
    let roleName : Option String :=
      match e.role with
      | none => none
      | some r => if s.roles.contains r then some r else none
    (200, some (e, roleName))

/-- Function `searchEmployeesByName` from the standalone data-access module
(dataAccess.js lines 33–35): `SELECT * FROM employees WHERE
name = ?` — exact equality, not substring matching. -/
def searchEmployeesByName (name : String) (s : Store) : List Employee :=
  s.employees.filter (fun e => e.name == some name)

/-- An operation of a Create/Delete trace against the employees table. -/
inductive Op where
  | create (name role status : Option String)
  | delete (id : Nat)

/-- Runs a trace of Create/Delete operations from a starting store and
collects, in order, the ids returned by the successful creates. -/
def runOps : List Op → Store → Store × List Nat
  | [], s => (s, [])
  | Op.create n r st :: ops, s =>
    let out := postEmployees n r st s
    let rest := runOps ops out.2
    match out.1.2 with
    | some e => (rest.1, e.id :: rest.2)
    | none => rest
  | Op.delete id :: ops, s => runOps ops (deleteEmployee id s).2

/-- Sample row used to instantiate theorems at concrete inputs. -/
def anaEmp : Employee := ⟨1, some "Ana", some "eng", some "active"⟩

/-- Sample store holding exactly the row `anaEmp`. -/
def anaStore : Store := ⟨[anaEmp], [], 1⟩

/-- Sample store whose single employee has a role with no matching row
in the roles table. -/
def ghostEmp : Employee := ⟨1, some "Ana", some "ghost", some "active"⟩

/-- Store holding `ghostEmp` and one unrelated role row. -/
def ghostStore : Store := ⟨[ghostEmp], ["eng"], 1⟩

/-- Sample store for the search-semantics comparison. -/
def annaEmp : Employee := ⟨1, some "Anna", some "eng", some "active"⟩

/-- Store holding exactly the row `annaEmp`. -/
def annaStore : Store := ⟨[annaEmp], [], 1⟩

/-! Helper lemmas shared by the claim theorems. -/

/-- Mapping an id-guarded rewrite over a list with no matching id is
the identity. -/
theorem map_if_id_eq_self (l : List Employee) (id : Nat) (g : Employee → Employee)
    (h : ∀ e ∈ l, e.id ≠ id) :
    l.map (fun e => if e.id == id then g e else e) = l := by
  induction l with
  | nil => rfl
  | cons a as ih =>
    have ha : ¬((a.id == id) = true) := by
      simpa using h a (List.mem_cons_self a as)
    simp only [List.map_cons, if_neg ha]
    rw [ih fun e he => h e (List.mem_cons_of_mem a he)]

/-- Filtering for an id absent from the list yields the empty list. -/
theorem filter_id_eq_nil (l : List Employee) (id : Nat)
    (h : ∀ e ∈ l, e.id ≠ id) :
    l.filter (fun e => e.id == id) = [] := by
  rw [List.filter_eq_nil_iff]
  intro e he
  simpa using h e he

/-- Filtering out an id absent from the list keeps every element. -/
theorem filter_ne_id_eq_self (l : List Employee) (id : Nat)
    (h : ∀ e ∈ l, e.id ≠ id) :
    l.filter (fun e => !(e.id == id)) = l := by
  rw [List.filter_eq_self]
  intro e he
  simpa using h e he

/-- After rewriting every row matching `id` to the requested fields,
the first row found for `id` carries exactly those fields. -/
theorem find?_map_update (l : List Employee) (id : Nat) (n r st : Option String)
    (h : ∃ e ∈ l, e.id = id) :
    (l.map (fun e => if e.id == id then Employee.mk e.id n r st else e)).find?
      (fun e => e.id == id) = some (Employee.mk id n r st) := by
  induction l with
  | nil => rcases h with ⟨e, he, _⟩; cases he
  | cons a as ih =>
    by_cases hc : a.id = id
    · have hb : (a.id == id) = true := beq_iff_eq.mpr hc
      simp only [List.map_cons, if_pos hb]
      rw [List.find?_cons_of_pos _ (by simpa using hc)]
      rw [hc]
    · have hb : ¬((a.id == id) = true) := by simpa using hc
      simp only [List.map_cons, if_neg hb]
      rw [List.find?_cons_of_neg (p := fun (e : Employee) => e.id == id) _ hb]
      apply ih
      rcases h with ⟨e, he, hid⟩
      rcases List.mem_cons.mp he with rfl | hmem
      · exact absurd hid hc
      · exact ⟨e, hmem, hid⟩

/-- The empty pattern is a run of every character list. -/
theorem subAt_nil (l : List Char) : subAt [] l = true := by
  cases l with
  | nil => rfl
  | cons c cs => simp [subAt, prefAt]

/-- A LIKE match with the empty query accepts every non-NULL name. -/
theorem likeContains_empty (n : String) : likeContains "" (some n) = true := by
  simp [likeContains, subAt_nil]

/-- Deleting an employee never changes the AUTOINCREMENT sequence. -/
theorem deleteEmployee_seq (id : Nat) (s : Store) :
    (deleteEmployee id s).2.seq = s.seq := by
  simp only [deleteEmployee]
  split <;> rfl

/-- Whatever branch the update takes, the resulting employees table is
the id-guarded rewrite of the old one. -/
theorem putEmployee_employees (id : Nat) (n r st : Option String) (s : Store) :
    (putEmployee id n r st s).2.employees =
      s.employees.map (fun e => if e.id == id then ⟨e.id, n, r, st⟩ else e) := by
  simp only [putEmployee]
  split <;> rfl

/-- Along any Create/Delete trace, the collected create ids are
pairwise strictly increasing and all exceed the starting sequence. -/
theorem runOps_sound (ops : List Op) (s : Store) :
    List.Pairwise (· < ·) (runOps ops s).2 ∧
      ∀ i ∈ (runOps ops s).2, s.seq < i := by
  induction ops generalizing s with
  | nil => simp [runOps]
  | cons op ops ih =>
    cases op with
    | create n r st =>
      by_cases hf : (falsy n || falsy r || falsy st) = true
      · have hpost : postEmployees n r st s = ((400, none), s) := by
          simp [postEmployees, hf]
        simp only [runOps, hpost]
        exact ih s
      · have hpost : postEmployees n r st s =
            ((201, some ⟨s.seq + 1, n, r, st⟩),
              ⟨s.employees ++ [⟨s.seq + 1, n, r, st⟩], s.roles, s.seq + 1⟩) := by
          simp [postEmployees, hf]
        obtain ⟨hpw, hgt⟩ :=
          ih ⟨s.employees ++ [⟨s.seq + 1, n, r, st⟩], s.roles, s.seq + 1⟩
        simp only [runOps, hpost]
        refine ⟨List.pairwise_cons.mpr ⟨fun i hi => ?_, hpw⟩, fun i hi => ?_⟩
        · exact hgt i hi
        · rcases List.mem_cons.mp hi with rfl | hmem
          · exact Nat.lt_succ_self _
          · exact Nat.lt_trans (Nat.lt_succ_self s.seq) (hgt i hmem)
    | delete id =>
      obtain ⟨hpw, hgt⟩ := ih (deleteEmployee id s).2
      simp only [runOps]
      refine ⟨hpw, fun i hi => ?_⟩
      rw [← deleteEmployee_seq id s]
      exact hgt i hi

/-- C1, counterexample: on a store holding only the employee `anaEmp`
(name "Ana"), a search for "zz" matches nothing, and the handler
answers 404 with an error body — not a 200 empty result set as the
claim states. -/
theorem search_no_match_is_404_counterexample :
    searchEmployees "zz" anaStore = (404, []) ∧
      (searchEmployees "zz" anaStore).1 ≠ 200 := by
  constructor <;> decide

/-- C1, amended: for every store state and query, when no employee
matches, the search handler returns HTTP 404 with no rows — the
handler does conflate "no matches" with NotFound. -/
theorem search_no_match_is_404 (q : String) (s : Store)
    (h : s.employees.filter (fun e => likeContains q e.name) = []) :
    searchEmployees q s = (404, []) := by
  simp [searchEmployees, h]

/-- C1, witness for the amended theorem at a concrete input. -/
theorem search_no_match_is_404_witness :
    initStore.employees.filter (fun e => likeContains "qq" e.name) = [] ∧
      searchEmployees "qq" initStore = (404, []) :=
  ⟨by decide, search_no_match_is_404 "qq" initStore (by decide)⟩

/-- C6: creating an employee with any of name, role, status absent or
empty fails with HTTP 400 and leaves the store — in particular the
employees table — exactly as it was. -/
theorem create_missing_field_400 (name role status : Option String) (s : Store)
    (h : (falsy name || falsy role || falsy status) = true) :
    postEmployees name role status s = ((400, none), s) := by
  simp [postEmployees, h]

/-- C6, witness: creating with an absent name on the fresh store. -/
theorem create_missing_field_400_witness :
    (falsy none || falsy (some "eng") || falsy (some "active")) = true ∧
      postEmployees none (some "eng") (some "active") initStore
        = ((400, none), initStore) :=
  ⟨by decide,
    create_missing_field_400 none (some "eng") (some "active") initStore (by decide)⟩

/-- C7: deleting a role, whatever its name and whatever the store
state, leaves every row of the employees table unchanged — a dangling
`role` reference in an employee row persists. -/
theorem delete_role_preserves_employees (name : String) (s : Store) :
    ((deleteRole name s).2).employees = s.employees := by
  simp only [deleteRole]
  split <;> rfl

/-- C2: for an id matching no row of the employees table, GetById,
Update, Delete, AssignRole, UpdateStatus and GetDetails all answer
HTTP 404, and each of the mutating four leaves the store exactly as it
was. -/
theorem absent_id_not_found (s : Store) (id : Nat)
    (n r st role status : Option String)
    (h : ∀ e ∈ s.employees, e.id ≠ id) :
    getEmployeeById id s = (404, none) ∧
      (putEmployee id n r st s).1.1 = 404 ∧ (putEmployee id n r st s).2 = s ∧
      (deleteEmployee id s).1.1 = 404 ∧ (deleteEmployee id s).2 = s ∧
      (assignRole id role s).1.1 = 404 ∧ (assignRole id role s).2 = s ∧
      (updateStatus id status s).1.1 = 404 ∧ (updateStatus id status s).2 = s ∧
      getEmployeeDetails id s = (404, none) := by
  have hfind : s.employees.find? (fun e => e.id == id) = none :=
    List.find?_eq_none.mpr fun e he => by simpa using h e he
  have hfil := filter_id_eq_nil s.employees id h
  have hfilne := filter_ne_id_eq_self s.employees id h
  refine ⟨by simp [getEmployeeById, hfind], ?_, ?_, ?_, ?_, ?_, ?_, ?_, ?_,
    by simp [getEmployeeDetails, hfind]⟩
  · simp [putEmployee, hfil]
  · simp only [putEmployee, hfil]
    rw [map_if_id_eq_self s.employees id _ h]
    simp
  · simp [deleteEmployee, hfil]
  · simp only [deleteEmployee, hfil, hfilne]
    simp
  · simp [assignRole, hfil]
  · simp only [assignRole, hfil]
    rw [map_if_id_eq_self s.employees id _ h]
    simp
  · simp [updateStatus, hfil]
  · simp only [updateStatus, hfil]
    rw [map_if_id_eq_self s.employees id _ h]
    simp

/-- C2, witness: id 5 is absent from `anaStore`; the failed update
leaves the store unchanged and GetById answers 404. -/
theorem absent_id_not_found_witness :
    (∀ e ∈ anaStore.employees, e.id ≠ 5) ∧
      getEmployeeById 5 anaStore = (404, none) ∧
      (putEmployee 5 none none none anaStore).2 = anaStore :=
  ⟨by decide,
    (absent_id_not_found anaStore 5 none none none none none (by decide)).1,
    (absent_id_not_found anaStore 5 none none none none none (by decide)).2.2.1⟩

/-- C3: along every Create/Delete trace from the fresh store, the ids
returned by successful creates are pairwise strictly increasing —
each create's id exceeds every previously assigned id, and ids are
never reused after deletes; in particular the concrete scenario
create, create, delete 1, create yields ids 1, 2, 3. -/
theorem create_ids_strictly_increasing (ops : List Op) :
    List.Pairwise (· < ·) (runOps ops initStore).2 ∧
      (runOps [Op.create (some "Ana") (some "eng") (some "active"),
               Op.create (some "Bo") (some "eng") (some "active"),
               Op.delete 1,
               Op.create (some "Cy") (some "eng") (some "active")]
          initStore).2 = [1, 2, 3] :=
  ⟨(runOps_sound ops initStore).1, by decide⟩

/-- C4: updating an employee present in the store and then fetching it
by id yields exactly the name, role and status passed to the update —
full overwrite, nothing of the prior version survives. -/
theorem update_then_get (s : Store) (id : Nat) (n r st : Option String)
    (h : ∃ e ∈ s.employees, e.id = id) :
    getEmployeeById id (putEmployee id n r st s).2
      = (200, some ⟨id, n, r, st⟩) := by
  simp only [getEmployeeById, putEmployee_employees,
    find?_map_update s.employees id n r st h]

/-- C4, witness: overwriting `anaEmp` with fresh field values. -/
theorem update_then_get_witness :
    (∃ e ∈ anaStore.employees, e.id = 1) ∧
      getEmployeeById 1
          (putEmployee 1 (some "Bo") (some "hr") (some "left") anaStore).2
        = (200, some ⟨1, some "Bo", some "hr", some "left"⟩) :=
  ⟨⟨anaEmp, by decide, rfl⟩,
    update_then_get anaStore 1 (some "Bo") (some "hr") (some "left")
      ⟨anaEmp, by decide, rfl⟩⟩

/-- C5: when the employee found for the id carries a role with no
matching row in the roles table (including a NULL role), GetDetails
answers HTTP 200 with the record extended by `roleName = null`; it is
not a 404, which is reserved for an absent employee. -/
theorem details_dangling_role_ok (s : Store) (id : Nat) (e : Employee)
    (hfind : s.employees.find? (fun x => x.id == id) = some e)
    (hrole : ∀ r, e.role = some r → r ∉ s.roles) :
    getEmployeeDetails id s = (200, some (e, none)) := by
  simp only [getEmployeeDetails, hfind]
  cases hr : e.role with
  | none => simp
  | some r =>
    have hc : s.roles.contains r = false := by
      have := hrole r hr
      simp only [List.contains, List.elem_eq_mem, decide_eq_false_iff_not]
      exact this
    simp [hc, hrole r hr]

/-- C5, witness: `ghostStore` holds one employee whose role "ghost"
has no row in the roles table; GetDetails answers 200 with a null
roleName. -/
theorem details_dangling_role_ok_witness :
    ghostStore.employees.find? (fun x => x.id == 1) = some ghostEmp ∧
      getEmployeeDetails 1 ghostStore = (200, some (ghostEmp, none)) :=
  ⟨by decide,
    details_dangling_role_ok ghostStore 1 ghostEmp (by decide)
      (fun r hr => by
        have : r = "ghost" := (Option.some.inj hr).symm
        subst this
        decide)⟩

/-- C8, counterexample: on the empty store, the full set of employees
is the empty set, yet SearchByName("") does not return it with
success — the handler answers 404 with an error body. -/
theorem search_all_empty_counterexample :
    searchEmployees "" initStore = (404, []) ∧
      (searchEmployees "" initStore).1 ≠ 200 := by
  constructor <;> decide

/-- C8, amended: SearchByName("") returns every employee with HTTP 200
for every store whose employees all have non-NULL names and which
holds at least one employee; on a store where no row matches — in
particular the empty store — the handler instead answers 404. -/
theorem search_empty_query_returns_all (s : Store)
    (hall : ∀ e ∈ s.employees, e.name ≠ none)
    (hne : s.employees ≠ []) :
    searchEmployees "" s = (200, s.employees) := by
  have hfil : s.employees.filter (fun e => likeContains "" e.name) = s.employees := by
    rw [List.filter_eq_self]
    intro e he
    cases hn : e.name with
    | none => exact absurd hn (hall e he)
    | some v => exact likeContains_empty v
  simp [searchEmployees, hfil, hne]

/-- C8, witness for the amended theorem on the one-employee store. -/
theorem search_empty_query_returns_all_witness :
    (∀ e ∈ anaStore.employees, e.name ≠ none) ∧ anaStore.employees ≠ [] ∧
      searchEmployees "" anaStore = (200, anaStore.employees) :=
  ⟨by decide, by decide,
    search_empty_query_returns_all anaStore (by decide) (by decide)⟩

/-- C9: the handler's substring search and the standalone module's
exact-equality search disagree: on a store holding one employee named
"Anna", the query "nn" — a strict substring of the name — is found by
the HTTP handler but not by `searchEmployeesByName`. -/
theorem search_semantics_disagree :
    searchEmployees "nn" annaStore = (200, [annaEmp]) ∧
      searchEmployeesByName "nn" annaStore = [] := by
  constructor <;> decide

/-- C10: the update handler performs no presence validation: for every
request body — in particular one with absent (null) fields — updating
an employee present in the store answers HTTP 200, never 400, and the
stored row's columns become exactly the request values, null for an
absent field. -/
theorem update_no_validation (s : Store) (id : Nat) (n r st : Option String)
    (h : ∃ e ∈ s.employees, e.id = id) :
    (putEmployee id n r st s).1.1 = 200 ∧
      getEmployeeById id (putEmployee id n r st s).2
        = (200, some ⟨id, n, r, st⟩) := by
  constructor
  · have hne : s.employees.filter (fun e => e.id == id) ≠ [] := by
      rcases h with ⟨e, he, hid⟩
      intro hnil
      rw [List.filter_eq_nil_iff] at hnil
      exact hnil e he (by simpa using hid)
    have hlen : ((s.employees.filter (fun e => e.id == id)).length == 0) = false := by
      rw [beq_eq_false_iff_ne]
      simpa [List.length_eq_zero] using hne
    simp [putEmployee, hlen]
  · simp only [getEmployeeById, putEmployee_employees,
      find?_map_update s.employees id n r st h]

/-- C10, witness: a body with all three fields absent still updates
`anaEmp`, answering 200 and writing NULL into all three columns. -/
theorem update_no_validation_witness :
    (∃ e ∈ anaStore.employees, e.id = 1) ∧
      (putEmployee 1 none none none anaStore).1.1 = 200 ∧
      getEmployeeById 1 (putEmployee 1 none none none anaStore).2
        = (200, some ⟨1, none, none, none⟩) :=
  ⟨⟨anaEmp, by decide, rfl⟩,
    update_no_validation anaStore 1 none none none ⟨anaEmp, by decide, rfl⟩⟩

end EmpMgmt
